import Mathlib

/-!
Verification of the GridFS bucket layer (`mongo/gridfs/bucket.go`) of
zhangdapeng520/zdpgo_mongo against its natural-language specification.

The Go code is shallowly embedded: each bucket operation becomes a Lean
function over an explicit model of the document store.  Calls to external
collaborators (collection finds, deletes, index listing/creation, the
upload/download stream objects) are modelled by oracle inputs describing
their outcomes and by an explicit trace of the operations issued, so that
claims about ordering and error propagation can be stated as theorems.
Machine integers (`int32` in Go) are modelled as `Int` with explicit
wrap-around where the source can overflow.
-/

namespace GridFS

/-! ## Revision selection (`OpenDownloadStreamByName`, bucket.go lines 209-226)

The Go function computes a skip count and a sort order from the optional
revision number using `int32` arithmetic:

    var numSkip int32 = -1
    var sortOrder int32 = 1
    if nameOpts.Revision != nil { numSkip = *nameOpts.Revision }
    if numSkip < 0 { sortOrder = -1; numSkip = (-1 * numSkip) - 1 }
-/

/-- Two's-complement wrap-around to the signed 32-bit range, applied wherever
the Go source performs an `int32` arithmetic operation. -/
def wrap32 (x : Int) : Int :=
  (x + 2 ^ 31) % 2 ^ 32 - 2 ^ 31

/-- Embeds the skip/sort computation of `OpenDownloadStreamByName`.
Returns `(numSkip, sortOrder)` exactly as the Go code computes them,
with each `int32` operation wrapped. -/
def revisionParams (revision : Option Int) : Int × Int :=
  let numSkip : Int :=
    match revision with
    | none => -1
    | some r => r
  if numSkip < 0 then
    (wrap32 (wrap32 ((-1) * numSkip) - 1), -1)
  else
    (numSkip, 1)

/-- A file metadata document, reduced to the fields relevant for by-name
revision lookup. -/
structure FileMeta where
  id : Nat
  uploadDate : Nat
  deriving DecidableEq

/-- Model of the external document store's `find` with a sort on
`uploadDate` and a skip, as consumed by `openDownloadStream`: `docsAsc` is
the collection's documents for the requested filename enumerated in
ascending `uploadDate` order; a descending sort yields the reverse.  The
cursor's first document (the one `findFile` decodes) is returned. -/
def findFirstByName (docsAsc : List FileMeta) (sortOrder numSkip : Int) : Option FileMeta :=
  let ordered := if sortOrder < 0 then docsAsc.reverse else docsAsc
  (ordered.drop numSkip.toNat).head?

/-- The metadata document `OpenDownloadStreamByName` selects, obtained by
feeding the computed skip/sort parameters to the find model. -/
def openDownloadStreamByNameSelect (docsAsc : List FileMeta) (revision : Option Int) :
    Option FileMeta :=
  let p := revisionParams revision
  findFirstByName docsAsc p.2 p.1

theorem wrap32_neg_sub_one {r : Int} (hlo : -(2 ^ 31) ≤ r) (hneg : r < 0) :
    wrap32 (wrap32 ((-1) * r) - 1) = (-r) - 1 := by
  unfold wrap32
  omega

/-- Claim C1: with revision option `r`, the by-name metadata lookup uses
ascending `uploadDate` sort with skip `r` when `r ≥ 0`, and descending
sort with skip `(-r) - 1` when `r < 0`; consequently revision `0` selects
the first-uploaded file with that name and revision `-1` the most
recently uploaded one. -/
theorem revision_selection (r : Int) (hlo : -(2 ^ 31) ≤ r) (hhi : r < 2 ^ 31) :
    (0 ≤ r → revisionParams (some r) = (r, 1)) ∧
    (r < 0 → revisionParams (some r) = ((-r) - 1, -1)) ∧
    (∀ docsAsc : List FileMeta,
      openDownloadStreamByNameSelect docsAsc (some 0) = docsAsc.head? ∧
      openDownloadStreamByNameSelect docsAsc (some (-1)) = docsAsc.getLast?) := by
  refine ⟨?_, ?_, ?_⟩
  · intro hge
    simp only [revisionParams]
    rw [if_neg (by omega)]
  · intro hneg
    simp only [revisionParams]
    rw [if_pos hneg, wrap32_neg_sub_one hlo hneg]
  · intro docsAsc
    constructor
    · simp [openDownloadStreamByNameSelect, revisionParams, findFirstByName]
    · have h1 : revisionParams (some (-1)) = (0, -1) := by
        simp only [revisionParams]
        rw [if_pos (by omega)]
        unfold wrap32
        norm_num
      simp [openDownloadStreamByNameSelect, h1, findFirstByName, List.head?_reverse]

/-- Witness for C1 at revision `-2`: descending sort with skip `1`. -/
theorem revision_selection_witness :
    revisionParams (some (-2)) = ((-(-2)) - 1, -1) :=
  (revision_selection (-2) (by norm_num) (by norm_num)).2.1 (by norm_num)

/-- Claim C9: with no revision option, the lookup defaults to revision `-1`:
descending `uploadDate` sort with skip `0`, selecting the most recently
uploaded file with the given filename. -/
theorem default_revision_most_recent :
    revisionParams none = (0, -1) ∧
    ∀ docsAsc : List FileMeta,
      openDownloadStreamByNameSelect docsAsc none = docsAsc.getLast? := by
  have h1 : revisionParams none = (0, -1) := by
    simp only [revisionParams]
    rw [if_pos (by norm_num)]
    unfold wrap32
    norm_num
  refine ⟨h1, ?_⟩
  intro docsAsc
  simp [openDownloadStreamByNameSelect, h1, findFirstByName, List.head?_reverse]

/-! ## Delete (`DeleteContext` bucket.go lines 259-282, `deleteChunks` lines 477-480)

    res, err := b.filesColl.DeleteOne(ctx, bson.D{{"_id", fileID}})
    if err == nil && res.DeletedCount == 0 { err = ErrFileNotFound }
    if err != nil {
        _ = b.deleteChunks(ctx, fileID)
        return err
    }
    return b.deleteChunks(ctx, fileID)
-/

/-- The two document-store delete operations `DeleteContext` can issue, in
trace order. -/
inductive DelOp where
  | deleteFile (fid : Nat)
  | deleteChunks (fid : Nat)
  deriving DecidableEq

/-- Errors visible to a `DeleteContext` caller: the sentinel
`ErrFileNotFound`, or a document-store error (identified by a code). -/
inductive DelErr where
  | fileNotFound
  | store (c : Nat)
  deriving DecidableEq

/-- Document-store state touched by deletion: the ids of the metadata
documents in the files collection, and `(filesId, n)` keys of the chunk
documents. -/
structure Store where
  files : List Nat
  chunks : List (Nat × Nat)
  deriving DecidableEq

/-- Model of `filesColl.DeleteOne` on the `_id` filter: removes the (at
most one, `_id` being unique) matching document and reports the deleted
count. -/
def deleteOneFile (s : Store) (fid : Nat) : Nat × Store :=
  if fid ∈ s.files then (1, { s with files := s.files.erase fid }) else (0, s)

/-- Model of `deleteChunks` (a `DeleteMany` on `files_id`): on success all
chunks of the file are removed; the oracle `cErr` injects a store error,
in which case the chunks are left in place. -/
def deleteChunks (s : Store) (fid : Nat) (cErr : Option Nat) : Except Nat Unit × Store :=
  match cErr with
  | some e => (Except.error e, s)
  | none => (Except.ok (), { s with chunks := s.chunks.filter (fun c => c.1 ≠ fid) })

/-- Embedding of `DeleteContext`.  `fErr` is the oracle outcome of the
files-collection `DeleteOne` call (`some e` = store error), `cErr` of the
chunks `DeleteMany`.  Returns the caller-visible result, the final store
state, and the trace of delete operations issued. -/
def deleteContext (s : Store) (fid : Nat) (fErr cErr : Option Nat) :
    Except DelErr Unit × Store × List DelOp :=
  match fErr with
  | some e =>
    let r := deleteChunks s fid cErr
    (Except.error (DelErr.store e), r.2, [DelOp.deleteFile fid, DelOp.deleteChunks fid])
  | none =>
    let d := deleteOneFile s fid
    if d.1 = 0 then
      let r := deleteChunks d.2 fid cErr
      (Except.error DelErr.fileNotFound, r.2, [DelOp.deleteFile fid, DelOp.deleteChunks fid])
    else
      match deleteChunks d.2 fid cErr with
      | (Except.error e, s2) =>
        (Except.error (DelErr.store e), s2, [DelOp.deleteFile fid, DelOp.deleteChunks fid])
      | (Except.ok _, s2) =>
        (Except.ok (), s2, [DelOp.deleteFile fid, DelOp.deleteChunks fid])

/-- Claim C2: `Delete` issues the metadata delete before any chunk delete;
a zero-match metadata delete still attempts the chunk delete and returns
`FileNotFound`; and a successful metadata delete followed by a failing
chunk delete returns the chunk-delete error while the metadata document
stays deleted. -/
theorem delete_ordering (s : Store) (fid : Nat) (fErr cErr : Option Nat)
    (hnd : s.files.Nodup) :
    (deleteContext s fid fErr cErr).2.2 = [DelOp.deleteFile fid, DelOp.deleteChunks fid] ∧
    (fErr = none → fid ∉ s.files →
      (deleteContext s fid fErr cErr).1 = Except.error DelErr.fileNotFound) ∧
    (∀ e, fErr = none → fid ∈ s.files → cErr = some e →
      (deleteContext s fid fErr cErr).1 = Except.error (DelErr.store e) ∧
      fid ∉ (deleteContext s fid fErr cErr).2.1.files) := by
  refine ⟨?_, ?_, ?_⟩
  · cases fErr with
    | some e => rfl
    | none =>
      by_cases hmem : fid ∈ s.files
      · cases hc : deleteChunks { s with files := s.files.erase fid } fid cErr with
        | mk res s2 => cases res <;> simp [deleteContext, deleteOneFile, hmem, hc]
      · simp [deleteContext, deleteOneFile, hmem]
  · intro hf hmem
    subst hf
    simp [deleteContext, deleteOneFile, hmem]
  · intro e hf hmem hc
    subst hf; subst hc
    simp only [deleteContext, deleteOneFile, deleteChunks]
    rw [if_pos hmem]
    refine ⟨rfl, List.Nodup.not_mem_erase hnd⟩

/-- Witness for C2: a store `{files := [7], chunks := [(7,0)]}`, deleting
file `7` with a failing chunk delete. -/
theorem delete_ordering_witness :
    (deleteContext ⟨[7], [(7, 0)]⟩ 7 none (some 3)).1 = Except.error (DelErr.store 3) ∧
    7 ∉ (deleteContext ⟨[7], [(7, 0)]⟩ 7 none (some 3)).2.1.files :=
  (delete_ordering ⟨[7], [(7, 0)]⟩ 7 none (some 3) (by decide)).2.2 3 rfl (by decide) rfl

/-! ## Index provisioning (bucket.go lines 507-638)

`numericalIndexDocsEqual` compares two BSON index-key documents: byte
equality fast path, then element count, element keys in order, and values
compared as int64 (`AsInt64OK` succeeds only on int32/int64 values).
`createNumericalIndexIfNotExists` lists the existing indexes and creates
the model index only when no listed key document is numerically equal.
`createIndexes` first checks, on a clone of the files collection forced to
primary read preference, whether the files collection is non-empty, and
if so returns immediately; `checkFirstWrite` gates the whole procedure on
the bucket's `firstWriteDone` flag, set only after success. -/

/-- A BSON value in an index-key document, as far as
`numericalIndexDocsEqual` can observe it: an int32, an int64, or any other
value (on which `AsInt64OK` fails). -/
inductive BVal where
  | i32 (v : Int)
  | i64 (v : Int)
  | other (tag : Nat)
  deriving DecidableEq

/-- An index key document: ordered elements of key name and BSON value. -/
abbrev IndexDoc := List (String × BVal)

/-- `Value.AsInt64OK`: succeeds exactly on int32 and int64 values. -/
def asInt64OK : BVal → Option Int
  | BVal.i32 v => some v
  | BVal.i64 v => some v
  | BVal.other _ => none

/-- The element loop of `numericalIndexDocsEqual`: equal length, equal keys
in order, and both values numeric and equal as int64. -/
def numericalElemsEqual : List (String × BVal) → List (String × BVal) → Bool
  | [], [] => true
  | (ke, ve) :: erest, (ka, va) :: arest =>
    if ka ≠ ke then false
    else
      match asInt64OK va, asInt64OK ve with
      | some ai, some ei => if ai ≠ ei then false else numericalElemsEqual erest arest
      | _, _ => false
  | _, _ => false

/-- Embedding of `numericalIndexDocsEqual` (bucket.go lines 508-547): byte
equality fast path (structural equality in the model), then the
element-by-element numeric comparison. -/
def numericalIndexDocsEqual (expected actual : IndexDoc) : Bool :=
  if expected = actual then true
  else numericalElemsEqual expected actual

/-- Read preference of a collection handle. -/
inductive ReadPref where
  | primary
  | secondary
  | nearest
  deriving DecidableEq

/-- Document-store operations issued during index provisioning, in trace
order.  `coll = false` is the files collection, `coll = true` the chunks
collection. -/
inductive IdxOp where
  | findOneFiles (rp : ReadPref)
  | listIndexes (coll : Bool)
  | createIndex (coll : Bool) (keys : IndexDoc)
  deriving DecidableEq

/-- Oracle outcomes for the fallible document-store calls of one
`createIndexes` run (`some e` = the call fails with store error `e`). -/
structure IdxOracle where
  cloneErr : Option Nat
  findOneErr : Option Nat
  filesListErr : Option Nat
  filesCreateErr : Option Nat
  chunksListErr : Option Nat
  chunksCreateErr : Option Nat
  deriving DecidableEq

/-- Bucket-instance state touched by index provisioning: the
`firstWriteDone` flag and the configured read preference. -/
structure BucketSt where
  firstWriteDone : Bool
  rp : ReadPref
  deriving DecidableEq

/-- Document-store state touched by index provisioning: whether the files
collection holds any document, and the key documents of the existing
indexes on each collection. -/
structure DBSt where
  filesNonEmpty : Bool
  filesIv : List IndexDoc
  chunksIv : List IndexDoc
  deriving DecidableEq

/-- Key document of the files-collection index model
`{filename: 1, uploadDate: 1}` (bucket.go lines 605-610). -/
def filesIndexKeys : IndexDoc :=
  [("filename", BVal.i32 1), ("uploadDate", BVal.i32 1)]

/-- Key document of the chunks-collection index model
`{files_id: 1, n: 1}` (bucket.go lines 612-618). -/
def chunksIndexKeys : IndexDoc :=
  [("files_id", BVal.i32 1), ("n", BVal.i32 1)]

/-- Embedding of `createNumericalIndexIfNotExists` (bucket.go lines
550-584): list the collection's indexes; if any listed key document is
numerically equal to the desired one, create nothing; otherwise create
the index.  Returns the collection's updated index list and the trace. -/
def createNumericalIndexIfNotExists (listErr createErr : Option Nat)
    (iv : List IndexDoc) (modelKeys : IndexDoc) (coll : Bool) :
    Except Nat (List IndexDoc) × List IdxOp :=
  match listErr with
  | some e => (Except.error e, [])
  | none =>
    if iv.any (fun d => numericalIndexDocsEqual modelKeys d) then
      (Except.ok iv, [IdxOp.listIndexes coll])
    else
      match createErr with
      | some e => (Except.error e, [IdxOp.listIndexes coll])
      | none =>
        (Except.ok (iv ++ [modelKeys]),
          [IdxOp.listIndexes coll, IdxOp.createIndex coll modelKeys])

/-- Embedding of `createIndexes` (bucket.go lines 587-624).  The files
collection is cloned with read preference forced to `primary` (regardless
of the bucket's configured `b.rp`), a `FindOne` on the clone checks for
emptiness, and only when the collection is empty are the two indexes
provisioned.  Returns the outcome, the updated store state, and the
trace. -/
def createIndexes (_b : BucketSt) (db : DBSt) (o : IdxOracle) :
    Except Nat Unit × DBSt × List IdxOp :=
  match o.cloneErr with
  | some e => (Except.error e, db, [])
  | none =>
    let clonedRp := ReadPref.primary
    match o.findOneErr with
    | some e => (Except.error e, db, [IdxOp.findOneFiles clonedRp])
    | none =>
      if db.filesNonEmpty then
        (Except.ok (), db, [IdxOp.findOneFiles clonedRp])
      else
        match createNumericalIndexIfNotExists o.filesListErr o.filesCreateErr
            db.filesIv filesIndexKeys false with
        | (Except.error e, tr1) =>
          (Except.error e, db, IdxOp.findOneFiles clonedRp :: tr1)
        | (Except.ok fiv, tr1) =>
          match createNumericalIndexIfNotExists o.chunksListErr o.chunksCreateErr
              db.chunksIv chunksIndexKeys true with
          | (Except.error e, tr2) =>
            (Except.error e, { db with filesIv := fiv },
              IdxOp.findOneFiles clonedRp :: (tr1 ++ tr2))
          | (Except.ok civ, tr2) =>
            (Except.ok (), { db with filesIv := fiv, chunksIv := civ },
              IdxOp.findOneFiles clonedRp :: (tr1 ++ tr2))

/-- Embedding of `checkFirstWrite` (bucket.go lines 626-638): when the
`firstWriteDone` flag is unset, run `createIndexes`; set the flag only on
success. -/
def checkFirstWrite (b : BucketSt) (db : DBSt) (o : IdxOracle) :
    Except Nat Unit × BucketSt × DBSt × List IdxOp :=
  if b.firstWriteDone then
    (Except.ok (), b, db, [])
  else
    match createIndexes b db o with
    | (Except.error e, db2, tr) => (Except.error e, b, db2, tr)
    | (Except.ok _, db2, tr) =>
      (Except.ok (), { b with firstWriteDone := true }, db2, tr)

/-- The all-successful oracle: every document-store call succeeds. -/
def cleanOracle : IdxOracle :=
  ⟨none, none, none, none, none, none⟩

theorem findOneFiles_not_mem_createNum (listErr createErr : Option Nat)
    (iv : List IndexDoc) (mkeys : IndexDoc) (coll : Bool) (rp : ReadPref) :
    IdxOp.findOneFiles rp ∉ (createNumericalIndexIfNotExists listErr createErr iv mkeys coll).2 := by
  cases listErr with
  | some e => simp [createNumericalIndexIfNotExists]
  | none =>
    by_cases hany : iv.any (fun d => numericalIndexDocsEqual mkeys d) = true
    · simp [createNumericalIndexIfNotExists, hany]
    · cases createErr <;> simp [createNumericalIndexIfNotExists, hany]

/-- Claim C4: the emptiness check before index creation runs with Primary
read preference regardless of the bucket's configured read preference,
and when the files collection already holds a document the index listing
and creation are skipped entirely. -/
theorem emptiness_check_primary (b : BucketSt) (db : DBSt) (o : IdxOracle) :
    (∀ rp, IdxOp.findOneFiles rp ∈ (createIndexes b db o).2.2 → rp = ReadPref.primary) ∧
    (db.filesNonEmpty = true → o.cloneErr = none → o.findOneErr = none →
      (createIndexes b db o).1 = Except.ok () ∧
      (createIndexes b db o).2.2 = [IdxOp.findOneFiles ReadPref.primary]) := by
  constructor
  · intro rp hmem
    unfold createIndexes at hmem
    cases hce : o.cloneErr with
    | some e => rw [hce] at hmem; simp at hmem
    | none =>
      rw [hce] at hmem
      cases hfe : o.findOneErr with
      | some e => rw [hfe] at hmem; simpa using hmem
      | none =>
        rw [hfe] at hmem
        dsimp only at hmem
        by_cases hne : db.filesNonEmpty = true
        · rw [if_pos hne] at hmem
          simpa using hmem
        · rw [if_neg hne] at hmem
          rcases h1 : createNumericalIndexIfNotExists o.filesListErr o.filesCreateErr
              db.filesIv filesIndexKeys false with ⟨res1, tr1⟩
          rw [h1] at hmem
          have hn1 : IdxOp.findOneFiles rp ∉ tr1 := by
            have hh := findOneFiles_not_mem_createNum o.filesListErr o.filesCreateErr
              db.filesIv filesIndexKeys false rp
            rw [h1] at hh
            exact hh
          cases res1 with
          | error e =>
            simp at hmem
            rcases hmem with h | h
            · exact h
            · exact absurd h hn1
          | ok fiv =>
            rcases h2 : createNumericalIndexIfNotExists o.chunksListErr o.chunksCreateErr
                db.chunksIv chunksIndexKeys true with ⟨res2, tr2⟩
            rw [h2] at hmem
            have hn2 : IdxOp.findOneFiles rp ∉ tr2 := by
              have hh := findOneFiles_not_mem_createNum o.chunksListErr o.chunksCreateErr
                db.chunksIv chunksIndexKeys true rp
              rw [h2] at hh
              exact hh
            cases res2 with
            | error e =>
              simp at hmem
              rcases hmem with h | h | h
              · exact h
              · exact absurd h hn1
              · exact absurd h hn2
            | ok civ =>
              simp at hmem
              rcases hmem with h | h | h
              · exact h
              · exact absurd h hn1
              · exact absurd h hn2
  · intro hne hce hfe
    simp [createIndexes, hce, hfe, hne]

/-- Witness for C4: a populated files collection with a clean oracle —
only the primary-read emptiness check runs and no index is created. -/
theorem emptiness_check_primary_witness :
    (createIndexes ⟨false, ReadPref.secondary⟩ ⟨true, [], []⟩ cleanOracle).1 = Except.ok () ∧
    (createIndexes ⟨false, ReadPref.secondary⟩ ⟨true, [], []⟩ cleanOracle).2.2 =
      [IdxOp.findOneFiles ReadPref.primary] :=
  (emptiness_check_primary ⟨false, ReadPref.secondary⟩ ⟨true, [], []⟩ cleanOracle).2
    rfl rfl rfl

/-- Claim C6: when index provisioning fails during the first-write check,
the bucket's `firstWriteDone` flag stays unset and the bucket state is
unchanged, so the next attempt runs index provisioning again (its trace
is exactly a fresh `createIndexes` trace). -/
theorem firstWrite_flag_unset_on_error (b : BucketSt) (db : DBSt) (o : IdxOracle) (e : Nat)
    (hb : b.firstWriteDone = false)
    (h : (checkFirstWrite b db o).1 = Except.error e) :
    (checkFirstWrite b db o).2.1 = b ∧
    (checkFirstWrite b db o).2.1.firstWriteDone = false ∧
    ∀ db2 o2, (checkFirstWrite ((checkFirstWrite b db o).2.1) db2 o2).2.2.2 =
      (createIndexes ((checkFirstWrite b db o).2.1) db2 o2).2.2 := by
  have hbeq : (checkFirstWrite b db o).2.1 = b := by
    unfold checkFirstWrite at h ⊢
    rw [if_neg (by simp [hb])] at h ⊢
    rcases hci : createIndexes b db o with ⟨res, db2, tr⟩
    rw [hci] at h
    cases res with
    | error e2 => rfl
    | ok u => exact Except.noConfusion h
  refine ⟨hbeq, by rw [hbeq]; exact hb, ?_⟩
  intro db2 o2
  rw [hbeq]
  unfold checkFirstWrite
  rw [if_neg (by simp [hb])]
  rcases hci : createIndexes b db2 o2 with ⟨res, db3, tr⟩
  cases res <;> simp

/-- Witness for C6: a failing index listing on an empty bucket leaves the
flag unset. -/
theorem firstWrite_flag_unset_on_error_witness :
    (checkFirstWrite ⟨false, ReadPref.primary⟩ ⟨false, [], []⟩
      ⟨none, none, some 5, none, none, none⟩).2.1 = (⟨false, ReadPref.primary⟩ : BucketSt) :=
  (firstWrite_flag_unset_on_error ⟨false, ReadPref.primary⟩ ⟨false, [], []⟩
    ⟨none, none, some 5, none, none, none⟩ 5 rfl rfl).1

/-- Claim C3: index provisioning is idempotent — on a bucket whose files
collection is empty, running the first-write check twice creates each of
the two indexes at most once; the second call is a no-op because the
`firstWriteDone` flag is set, and within a call an index whose key
specification is numerically equal to the desired one is not
re-created. -/
theorem index_provisioning_idempotent (b : BucketSt) (db : DBSt) (o2 : IdxOracle)
    (hb : b.firstWriteDone = false) (hne : db.filesNonEmpty = false) :
    (checkFirstWrite b db cleanOracle).1 = Except.ok () ∧
    (checkFirstWrite (checkFirstWrite b db cleanOracle).2.1
        (checkFirstWrite b db cleanOracle).2.2.1 o2).1 = Except.ok () ∧
    (checkFirstWrite (checkFirstWrite b db cleanOracle).2.1
        (checkFirstWrite b db cleanOracle).2.2.1 o2).2.1 =
      (checkFirstWrite b db cleanOracle).2.1 ∧
    (checkFirstWrite (checkFirstWrite b db cleanOracle).2.1
        (checkFirstWrite b db cleanOracle).2.2.1 o2).2.2.1 =
      (checkFirstWrite b db cleanOracle).2.2.1 ∧
    (checkFirstWrite (checkFirstWrite b db cleanOracle).2.1
        (checkFirstWrite b db cleanOracle).2.2.1 o2).2.2.2 = [] ∧
    ((checkFirstWrite b db cleanOracle).2.2.2).count
      (IdxOp.createIndex false filesIndexKeys) ≤ 1 ∧
    ((checkFirstWrite b db cleanOracle).2.2.2).count
      (IdxOp.createIndex true chunksIndexKeys) ≤ 1 ∧
    (db.filesIv.any (fun d => numericalIndexDocsEqual filesIndexKeys d) = true →
      IdxOp.createIndex false filesIndexKeys ∉ (checkFirstWrite b db cleanOracle).2.2.2) ∧
    (db.chunksIv.any (fun d => numericalIndexDocsEqual chunksIndexKeys d) = true →
      IdxOp.createIndex true chunksIndexKeys ∉ (checkFirstWrite b db cleanOracle).2.2.2) := by
  by_cases h1 : db.filesIv.any (fun d => numericalIndexDocsEqual filesIndexKeys d) = true <;>
    by_cases h2 : db.chunksIv.any (fun d => numericalIndexDocsEqual chunksIndexKeys d) = true <;>
      simp [checkFirstWrite, createIndexes, createNumericalIndexIfNotExists, cleanOracle,
        hb, hne, h1, h2, List.count_cons, List.count_nil, List.count_append]

/-- Witness for C3: fresh empty bucket, both indexes created exactly once
by the first call, second call a no-op. -/
theorem index_provisioning_idempotent_witness :
    (checkFirstWrite ⟨false, ReadPref.primary⟩ ⟨false, [], []⟩ cleanOracle).1 =
      Except.ok () ∧
    ((checkFirstWrite ⟨false, ReadPref.primary⟩ ⟨false, [], []⟩ cleanOracle).2.2.2).count
      (IdxOp.createIndex false filesIndexKeys) ≤ 1 :=
  ⟨(index_provisioning_idempotent ⟨false, ReadPref.primary⟩ ⟨false, [], []⟩
      cleanOracle rfl rfl).1,
   (index_provisioning_idempotent ⟨false, ReadPref.primary⟩ ⟨false, [], []⟩
      cleanOracle rfl rfl).2.2.2.2.2.1⟩

/-! ## Upload driver loop (`UploadFromStreamWithID`, bucket.go lines 153-185)

    us, err := b.OpenUploadStreamWithID(fileID, filename, opts...)
    if err != nil { return err }
    err = us.SetWriteDeadline(b.writeDeadline)
    if err != nil { _ = us.Close(); return err }
    for {
        n, err := source.Read(b.readBuf)
        if err != nil && err != io.EOF { _ = us.Abort(); return err }
        if n > 0 {
            _, err := us.Write(b.readBuf[:n])
            if err != nil { return err }
        }
        if n == 0 || err == io.EOF { break }
    }
    return us.Close()

The source reader is modelled as a script of read outcomes (`(n, err)`
pairs); an exhausted script keeps returning `(0, io.EOF)` like a real
reader.  The upload stream's `Write` outcomes come from a second script
(defaulting to success when exhausted), and `Close` from an oracle.
Errors are tagged with their origin, which mirrors the distinct error
values the Go collaborators return. -/

/-- One outcome of `source.Read`: `bytes n` is `(n, nil)`, `eof n` is
`(n, io.EOF)`, `fail n c` is `(n, err)` for a non-EOF error `c`. -/
inductive ReadRes where
  | bytes (n : Nat)
  | eof (n : Nat)
  | fail (n : Nat) (c : Nat)
  deriving DecidableEq

/-- Errors a caller of `UploadFromStreamWithID` can see, tagged by the
collaborator call that produced them. -/
inductive UErr where
  | openE (c : Nat)
  | deadlineE (c : Nat)
  | readE (c : Nat)
  | writeE (c : Nat)
  | closeE (c : Nat)
  deriving DecidableEq

/-- Operations invoked on the upload (or download) stream object, in trace
order. -/
inductive StreamOp where
  | write (n : Nat)
  | abort
  | close
  deriving DecidableEq

/-- Outcome of `us.Close()` under close oracle `ce`. -/
def closeResult (ce : Option Nat) : Except UErr Unit :=
  match ce with
  | some c => Except.error (UErr.closeE c)
  | none => Except.ok ()

/-- The `for` loop of `UploadFromStreamWithID` followed by the final
`us.Close()`.  `src` scripts the source reads, `wr` the upload stream's
`Write` outcomes, `ce` the final `Close`.  Returns the caller-visible
result and the trace of stream operations. -/
def uploadLoop (src : List ReadRes) (wr : List (Option Nat)) (ce : Option Nat) :
    Except UErr Unit × List StreamOp :=
  match src with
  | [] => (closeResult ce, [StreamOp.close])
  | r :: rest =>
    match r with
    | ReadRes.fail _ c => (Except.error (UErr.readE c), [StreamOp.abort])
    | ReadRes.bytes n =>
      if n > 0 then
        match wr with
        | some c :: _ => (Except.error (UErr.writeE c), [StreamOp.write n])
        | none :: wrest =>
          let t := uploadLoop rest wrest ce
          (t.1, StreamOp.write n :: t.2)
        | [] =>
          let t := uploadLoop rest [] ce
          (t.1, StreamOp.write n :: t.2)
      else
        (closeResult ce, [StreamOp.close])
    | ReadRes.eof n =>
      if n > 0 then
        match wr with
        | some c :: _ => (Except.error (UErr.writeE c), [StreamOp.write n])
        | _ => (closeResult ce, [StreamOp.write n, StreamOp.close])
      else
        (closeResult ce, [StreamOp.close])

/-- Embedding of `UploadFromStreamWithID`: open the upload stream (`oe`
oracle), set the write deadline (`de` oracle, closing the stream on
failure), then run the read/write loop. -/
def uploadFromStreamWithID (oe de : Option Nat) (src : List ReadRes)
    (wr : List (Option Nat)) (ce : Option Nat) : Except UErr Unit × List StreamOp :=
  match oe with
  | some c => (Except.error (UErr.openE c), [])
  | none =>
    match de with
    | some c => (Except.error (UErr.deadlineE c), [StreamOp.close])
    | none => uploadLoop src wr ce

/-! ## Download helper (`downloadToStream`, bucket.go lines 461-475)

    err := ds.SetReadDeadline(b.readDeadline)
    if err != nil { _ = ds.Close(); return 0, err }
    copied, err := io.Copy(stream, ds)
    if err != nil { _ = ds.Close(); return 0, err }
    return copied, ds.Close()
-/

/-- Embedding of `downloadToStream`: `de` is the `SetReadDeadline` oracle,
`copyRes` the outcome of `io.Copy` (bytes copied or error), `ce` the
`Close` oracle.  Returns `(bytes returned, error)` and the trace of
stream operations. -/
def downloadToStream (de : Option Nat) (copyRes : Except Nat Nat) (ce : Option Nat) :
    (Nat × Option Nat) × List StreamOp :=
  match de with
  | some e => ((0, some e), [StreamOp.close])
  | none =>
    match copyRes with
    | Except.error e => ((0, some e), [StreamOp.close])
    | Except.ok copied => ((copied, ce), [StreamOp.close])

theorem uploadLoop_abort_of_readE (src : List ReadRes) (wr : List (Option Nat))
    (ce : Option Nat) (c : Nat)
    (h : (uploadLoop src wr ce).1 = Except.error (UErr.readE c)) :
    StreamOp.abort ∈ (uploadLoop src wr ce).2 := by
  induction src generalizing wr with
  | nil =>
    cases ce <;> simp [uploadLoop, closeResult] at h
  | cons r rest ih =>
    cases r with
    | fail n c2 => simp [uploadLoop]
    | bytes n =>
      by_cases hn : n > 0
      · match wr with
        | some c2 :: wrest => simp [uploadLoop, hn] at h
        | none :: wrest =>
          simp [uploadLoop, hn] at h ⊢
          exact ih wrest h
        | [] =>
          simp [uploadLoop, hn] at h ⊢
          exact ih [] h
      · cases ce <;> simp [uploadLoop, hn, closeResult] at h
    | eof n =>
      by_cases hn : n > 0
      · match wr with
        | some c2 :: wrest => simp [uploadLoop, hn] at h
        | none :: wrest => cases ce <;> simp [uploadLoop, hn, closeResult] at h
        | [] => cases ce <;> simp [uploadLoop, hn, closeResult] at h
      · cases ce <;> simp [uploadLoop, hn, closeResult] at h

theorem uploadLoop_close_of_done (src : List ReadRes) (wr : List (Option Nat))
    (ce : Option Nat)
    (h : (uploadLoop src wr ce).1 = Except.ok () ∨
      ∃ c, (uploadLoop src wr ce).1 = Except.error (UErr.closeE c)) :
    StreamOp.close ∈ (uploadLoop src wr ce).2 := by
  induction src generalizing wr with
  | nil => simp [uploadLoop]
  | cons r rest ih =>
    cases r with
    | fail n c2 => simp [uploadLoop] at h
    | bytes n =>
      by_cases hn : n > 0
      · match wr with
        | some c2 :: wrest => simp [uploadLoop, hn] at h
        | none :: wrest =>
          simp [uploadLoop, hn] at h ⊢
          exact ih wrest h
        | [] =>
          simp [uploadLoop, hn] at h ⊢
          exact ih [] h
      · simp [uploadLoop, hn]
    | eof n =>
      by_cases hn : n > 0
      · match wr with
        | some c2 :: wrest => simp [uploadLoop, hn] at h
        | none :: wrest => simp [uploadLoop, hn]
        | [] => simp [uploadLoop, hn]
      · simp [uploadLoop, hn]

theorem uploadLoop_writeE_no_close_no_abort (src : List ReadRes) (wr : List (Option Nat))
    (ce : Option Nat) (c : Nat)
    (h : (uploadLoop src wr ce).1 = Except.error (UErr.writeE c)) :
    StreamOp.close ∉ (uploadLoop src wr ce).2 ∧
      StreamOp.abort ∉ (uploadLoop src wr ce).2 := by
  induction src generalizing wr with
  | nil =>
    cases ce <;> simp [uploadLoop, closeResult] at h
  | cons r rest ih =>
    cases r with
    | fail n c2 => simp [uploadLoop] at h
    | bytes n =>
      by_cases hn : n > 0
      · match wr with
        | some c2 :: wrest => simp [uploadLoop, hn]
        | none :: wrest =>
          simp [uploadLoop, hn] at h ⊢
          exact ih wrest h
        | [] =>
          simp [uploadLoop, hn] at h ⊢
          exact ih [] h
      · cases ce <;> simp [uploadLoop, hn, closeResult] at h
    | eof n =>
      by_cases hn : n > 0
      · match wr with
        | some c2 :: wrest => simp [uploadLoop, hn]
        | none :: wrest => cases ce <;> simp [uploadLoop, hn, closeResult] at h
        | [] => cases ce <;> simp [uploadLoop, hn, closeResult] at h
      · cases ce <;> simp [uploadLoop, hn, closeResult] at h

theorem uploadLoop_no_deadlineE (src : List ReadRes) (wr : List (Option Nat))
    (ce : Option Nat) (c : Nat) :
    (uploadLoop src wr ce).1 ≠ Except.error (UErr.deadlineE c) := by
  induction src generalizing wr with
  | nil => cases ce <;> simp [uploadLoop, closeResult]
  | cons r rest ih =>
    cases r with
    | fail n c2 => simp [uploadLoop]
    | bytes n =>
      by_cases hn : n > 0
      · match wr with
        | some c2 :: wrest => simp [uploadLoop, hn]
        | none :: wrest =>
          simp [uploadLoop, hn]
          exact ih wrest
        | [] =>
          simp [uploadLoop, hn]
          exact ih []
      · cases ce <;> simp [uploadLoop, hn, closeResult]
    | eof n =>
      by_cases hn : n > 0
      · match wr with
        | some c2 :: wrest => simp [uploadLoop, hn]
        | none :: wrest => cases ce <;> simp [uploadLoop, hn, closeResult]
        | [] => cases ce <;> simp [uploadLoop, hn, closeResult]
      · cases ce <;> simp [uploadLoop, hn, closeResult]

/-- Claim C8: whenever a source read returns a non-EOF error, the upload
stream's `Abort` is invoked before that read error is propagated; and
when the source is exhausted without error, the stream's `Close` is
invoked (committing metadata). -/
theorem upload_abort_on_read_error_close_on_success (src : List ReadRes)
    (wr : List (Option Nat)) (ce : Option Nat) :
    (∀ c, (uploadFromStreamWithID none none src wr ce).1 = Except.error (UErr.readE c) →
      StreamOp.abort ∈ (uploadFromStreamWithID none none src wr ce).2) ∧
    ((uploadFromStreamWithID none none src wr ce).1 = Except.ok () →
      StreamOp.close ∈ (uploadFromStreamWithID none none src wr ce).2) ∧
    (∀ c, (uploadFromStreamWithID none none src wr ce).1 = Except.error (UErr.closeE c) →
      StreamOp.close ∈ (uploadFromStreamWithID none none src wr ce).2) :=
  ⟨fun c h => uploadLoop_abort_of_readE src wr ce c h,
   fun h => uploadLoop_close_of_done src wr ce (Or.inl h),
   fun c h => uploadLoop_close_of_done src wr ce (Or.inr ⟨c, h⟩)⟩

/-- Witness for C8: a failing first read aborts; an immediately exhausted
source closes. -/
theorem upload_abort_on_read_error_close_on_success_witness :
    StreamOp.abort ∈ (uploadFromStreamWithID none none [ReadRes.fail 0 9] [] none).2 ∧
    StreamOp.close ∈ (uploadFromStreamWithID none none [] [] none).2 :=
  ⟨(upload_abort_on_read_error_close_on_success [ReadRes.fail 0 9] [] none).1 9 rfl,
   (upload_abort_on_read_error_close_on_success [] [] none).2.1 rfl⟩

/-- Claim C10: a source read returning `(0, nil)` ends the read loop: the
upload is closed successfully (metadata committed) and the rest of the
source is never consulted, rather than the read being retried. -/
theorem zero_byte_nil_read_ends_upload (rest : List ReadRes) (wr : List (Option Nat)) :
    uploadFromStreamWithID none none (ReadRes.bytes 0 :: rest) wr none =
      (Except.ok (), [StreamOp.close]) := by
  simp [uploadFromStreamWithID, uploadLoop, closeResult]

/-- Counterexample to claim C5 as stated: a source read of 5 bytes whose
forwarding `us.Write` fails makes `UploadFromStreamWithID` return the
write error with neither `Close` nor `Abort` invoked on the stream. -/
theorem upload_write_error_leaves_stream_open :
    (uploadFromStreamWithID none none [ReadRes.bytes 5] [some 7] none).1 =
      Except.error (UErr.writeE 7) ∧
    StreamOp.close ∉ (uploadFromStreamWithID none none [ReadRes.bytes 5] [some 7] none).2 ∧
    StreamOp.abort ∉ (uploadFromStreamWithID none none [ReadRes.bytes 5] [some 7] none).2 :=
  ⟨rfl, by decide, by decide⟩

/-- Claim C5 (amended): `downloadToStream` closes the stream on every
path, error or not; `UploadFromStreamWithID` closes the stream on
`SetWriteDeadline` errors and aborts it on non-EOF source-read errors,
but an error returned by the upload stream's `Write` is propagated
without `Close` or `Abort`. -/
theorem streams_closed_on_error_amended (dde : Option Nat) (copyRes : Except Nat Nat)
    (dce : Option Nat) (ue : Option Nat) (src : List ReadRes) (wr : List (Option Nat))
    (ce : Option Nat) :
    (downloadToStream dde copyRes dce).2 = [StreamOp.close] ∧
    (∀ c, (uploadFromStreamWithID none ue src wr ce).1 = Except.error (UErr.deadlineE c) →
      StreamOp.close ∈ (uploadFromStreamWithID none ue src wr ce).2) ∧
    (∀ c, (uploadFromStreamWithID none ue src wr ce).1 = Except.error (UErr.readE c) →
      StreamOp.abort ∈ (uploadFromStreamWithID none ue src wr ce).2) ∧
    (∀ c, (uploadFromStreamWithID none ue src wr ce).1 = Except.error (UErr.writeE c) →
      StreamOp.close ∉ (uploadFromStreamWithID none ue src wr ce).2 ∧
      StreamOp.abort ∉ (uploadFromStreamWithID none ue src wr ce).2) := by
  refine ⟨?_, ?_, ?_, ?_⟩
  · cases dde with
    | some e => rfl
    | none => cases copyRes <;> rfl
  · intro c h
    cases ue with
    | some c2 => simp [uploadFromStreamWithID]
    | none => exact absurd h (uploadLoop_no_deadlineE src wr ce c)
  · intro c h
    cases ue with
    | some c2 => simp [uploadFromStreamWithID] at h
    | none => exact uploadLoop_abort_of_readE src wr ce c h
  · intro c h
    cases ue with
    | some c2 => simp [uploadFromStreamWithID] at h
    | none => exact uploadLoop_writeE_no_close_no_abort src wr ce c h

/-- Witness for C5 (amended): download always closes; a failing read
aborts the upload. -/
theorem streams_closed_on_error_amended_witness :
    (downloadToStream (some 1) (Except.ok 0) none).2 = [StreamOp.close] ∧
    StreamOp.abort ∈ (uploadFromStreamWithID none none [ReadRes.fail 0 9] [] none).2 :=
  ⟨(streams_closed_on_error_amended (some 1) (Except.ok 0) none none [ReadRes.fail 0 9]
      [] none).1,
   (streams_closed_on_error_amended (some 1) (Except.ok 0) none none [ReadRes.fail 0 9]
      [] none).2.2.1 9 rfl⟩

/-! ## Opening a download stream (`openDownloadStream`, bucket.go lines 416-451)

After `findFile` locates and decodes a metadata document:

    if foundFile.Length == 0 { return newDownloadStream(nil, foundFile.ChunkSize, &foundFile), nil }
    if _, err := cursor.Current.LookupErr("chunkSize"); err != nil { return nil, ErrMissingChunkSize }
    chunksCursor, err := b.findChunks(ctx, foundFile.ID)
    if err != nil { return nil, err }
    return newDownloadStream(chunksCursor, foundFile.ChunkSize, &foundFile), nil
-/

/-- A located files-collection document, as `openDownloadStream` observes
it: the decoded length and chunk size, plus whether the raw document
actually contains a `chunkSize` field (a missing field decodes to the
zero value, so presence is tracked separately, as the Go `LookupErr`
check does). -/
structure FileDoc where
  id : Nat
  length : Int
  chunkSizePresent : Bool
  chunkSize : Int
  deriving DecidableEq

/-- The download stream as constructed by `newDownloadStream` at the call
sites in `openDownloadStream`: `hasCursor` records whether a backing
chunk cursor was passed (`nil` for zero-length files). -/
structure DownloadStream where
  hasCursor : Bool
  chunkSize : Int
  fileLength : Int
  deriving DecidableEq

/-- Document-store operations issued by `openDownloadStream`, in trace
order. -/
inductive DownOp where
  | findFiles
  | findChunks (fid : Nat)
  deriving DecidableEq

/-- Errors of the download-open path: `ErrFileNotFound`,
`ErrMissingChunkSize`, or a pass-through store error. -/
inductive GErr where
  | fileNotFound
  | missingChunkSize
  | store (c : Nat)
  deriving DecidableEq

/-- Embedding of `openDownloadStream`: `findErr` is the oracle outcome of
the files-collection find, `found` the located metadata document (`none`
= cursor empty, giving `ErrFileNotFound`), `chunksFindErr` the oracle
outcome of the chunk find. -/
def openDownloadStream (findErr : Option Nat) (found : Option FileDoc)
    (chunksFindErr : Option Nat) : Except GErr DownloadStream × List DownOp :=
  match findErr with
  | some e => (Except.error (GErr.store e), [DownOp.findFiles])
  | none =>
    match found with
    | none => (Except.error GErr.fileNotFound, [DownOp.findFiles])
    | some f =>
      if f.length = 0 then
        (Except.ok ⟨false, f.chunkSize, f.length⟩, [DownOp.findFiles])
      else if f.chunkSizePresent = false then
        (Except.error GErr.missingChunkSize, [DownOp.findFiles])
      else
        match chunksFindErr with
        | some e => (Except.error (GErr.store e), [DownOp.findFiles, DownOp.findChunks f.id])
        | none =>
          (Except.ok ⟨true, f.chunkSize, f.length⟩,
            [DownOp.findFiles, DownOp.findChunks f.id])

/-- Claim C7: opening a download stream from a located metadata document
of length 0 yields a stream with no backing chunk cursor and queries no
chunks; a document with positive length but no `chunkSize` field yields
`ErrMissingChunkSize`, with no stream constructed and no chunks
queried. -/
theorem open_download_zero_length_and_missing_chunk_size (f : FileDoc) (ce : Option Nat) :
    (f.length = 0 →
      (openDownloadStream none (some f) ce).1 =
        Except.ok ⟨false, f.chunkSize, f.length⟩ ∧
      ∀ fid, DownOp.findChunks fid ∉ (openDownloadStream none (some f) ce).2) ∧
    (0 < f.length → f.chunkSizePresent = false →
      (openDownloadStream none (some f) ce).1 = Except.error GErr.missingChunkSize ∧
      ∀ fid, DownOp.findChunks fid ∉ (openDownloadStream none (some f) ce).2) := by
  constructor
  · intro h0
    simp [openDownloadStream, h0]
  · intro hpos habs
    have hne : ¬f.length = 0 := by omega
    simp [openDownloadStream, hne, habs]

/-- Witness for C7: a zero-length file gives a cursorless stream; a
length-3 file without `chunkSize` gives `ErrMissingChunkSize`. -/
theorem open_download_zero_length_and_missing_chunk_size_witness :
    (openDownloadStream none (some ⟨1, 0, false, 0⟩) none).1 =
      Except.ok ⟨false, 0, 0⟩ ∧
    (openDownloadStream none (some ⟨2, 3, false, 255⟩) none).1 =
      Except.error GErr.missingChunkSize :=
  ⟨((open_download_zero_length_and_missing_chunk_size ⟨1, 0, false, 0⟩ none).1 rfl).1,
   ((open_download_zero_length_and_missing_chunk_size ⟨2, 3, false, 255⟩ none).2
      (by norm_num) rfl).1⟩

end GridFS
